import Mathlib

/-
  Verification development for the rlctbg header-wrapping generator
  (src/rlctbg/__init__.py).  The Python source is shallowly embedded:
  pure functions become Lean functions on String / List Char, the
  module-level mutable builder state (EnumData.current, StructData.current)
  and the per-run driver state become an explicit record threaded through
  a step function, and Python exceptions (assert, ValueError on unpacking,
  IndexError on indexing an empty string, AttributeError on None attribute
  access, TypeError on int(None)) become an Except error type.
  Input lines are modelled without their trailing newline character; the
  regular expressions of the source only ever capture newline-free text on
  such lines, so nothing is lost.  Character classes of the re module are
  modelled at ASCII (the only alphabet the wrapped headers use).
-/

namespace RlCtbg

/-- Python exceptions that the generator can raise, as an error type. -/
inductive PyError where
  | valueError : PyError
  | indexError : PyError
  | typeError : PyError
  | attributeError : PyError
  | assertionError : String → PyError
deriving Repr, DecidableEq

/-- ASCII model of the re module class \w, i.e. [a-zA-Z0-9_]. -/
def isWordChar (c : Char) : Bool := c.isAlphanum || c = '_'

/-- ASCII model of the re module class \s. -/
def isSpaceChar (c : Char) : Bool :=
  c = ' ' || c = '\t' || c = '\n' || c = '\r' || c = '\x0b' || c = '\x0c'

/-- Value characters of RULE_DEFINE, the class [a-zA-Z0-9./()]. -/
def isDefineValueChar (c : Char) : Bool :=
  c.isAlphanum || c = '.' || c = '/' || c = '(' || c = ')'

/-- Python int(s, 10) on a string of decimal digits. -/
def digitsToNat (cs : List Char) : Nat :=
  cs.foldl (fun a c => a * 10 + (c.toNat - '0'.toNat)) 0

/-- Python str.strip(chars): remove leading and trailing characters
    belonging to the given set. -/
def stripChars (cs : List Char) (cut : List Char) : List Char :=
  ((cs.dropWhile (cut.contains ·)).reverse.dropWhile (cut.contains ·)).reverse

/-- Python str.strip(chars) lifted to String. -/
def stripCharsStr (s : String) (cut : List Char) : String :=
  String.mk (stripChars s.toList cut)

/-- Python str.replace(old, new): replace every non-overlapping occurrence,
    scanning left to right.  Implemented with fuel equal to the length of the
    remaining input; every step consumes at least one character whenever old
    is nonempty, so the fuel never runs out on the calls made here. -/
def replaceAllFuel (old new : List Char) : Nat → List Char → List Char
  | 0, s => s
  | _ + 1, [] => []
  | fuel + 1, c :: cs =>
    if old ≠ [] ∧ old.isPrefixOf (c :: cs) then
      new ++ replaceAllFuel old new fuel ((c :: cs).drop old.length)
    else
      c :: replaceAllFuel old new fuel cs

/-- Python str.replace(old, new) on character lists. -/
def replaceAll (old new s : List Char) : List Char :=
  replaceAllFuel old new s.length s

/-- Python str.replace(old, new) lifted to String. -/
def replaceAllStr (s old new : String) : String :=
  String.mk (replaceAll old.toList new.toList s.toList)

/-- Python str.split(sep) for a nonempty separator: cut at each leftmost
    non-overlapping occurrence.  Fuel equal to the input length is enough,
    every step consuming at least one character. -/
def splitOnFuel (sep : List Char) : Nat → List Char → List Char → List (List Char)
  | 0, s, acc => [acc.reverse ++ s]
  | fuel + 1, s, acc =>
    match s with
    | [] => [acc.reverse]
    | c :: cs =>
      if sep ≠ [] ∧ sep.isPrefixOf (c :: cs) then
        acc.reverse :: splitOnFuel sep fuel ((c :: cs).drop sep.length) []
      else splitOnFuel sep fuel cs (c :: acc)

/-- Python str.split(sep) lifted to String. -/
def splitOnStr (s sep : String) : List String :=
  (splitOnFuel sep.toList s.toList.length s.toList []).map String.mk

/-- The C_TYPES set of the source (the recognized primitive base tokens). -/
def C_TYPES : List String :=
  ["void", "bool", "char", "byte", "short", "int", "long", "longlong",
   "float", "double", "longdouble"]

/-- The C_TO_PY_TYPES mapping of the source (ctypes name to Python-facing
    annotation). -/
def C_TO_PY_TYPES : List (String × String) :=
  [("c_void_p", "int"), ("c_bool", "bool"), ("c_char", "bytes"),
   ("c_char_p", "bytes"), ("c_byte", "int"), ("c_ubyte", "int"),
   ("c_short", "int"), ("c_ushort", "int"), ("c_int", "int"),
   ("c_uint", "int"), ("c_long", "int"), ("c_ulong", "int"),
   ("c_longlong", "int"), ("c_ulonglong", "int"), ("c_float", "float"),
   ("c_double", "float"), ("c_longdouble", "float")]

/-- The while loop at the end of typename: wrap the remaining pointer
    levels in POINTER(...). -/
def wrapPointer : Nat → String → String
  | 0, d => d
  | n + 1, d => "POINTER(" ++ wrapPointer n d ++ ")"

/-- The branch of typename that classifies the stripped base token and
    possibly absorbs one pointer level into a dedicated pointer primitive;
    returns the mapped base together with the remaining pointer depth. -/
def typenameBase (unsigned : Bool) (dtype : String) (lv : Nat) : String × Nat :=
  if C_TYPES.contains dtype then
    let d1 := if unsigned && dtype == "char" then "byte" else dtype
    let d2 := if unsigned then "u" ++ d1 else d1
    if (d2 == "char" || d2 == "void") && lv > 0 then
      ("c_" ++ (d2 ++ "_p"), lv - 1)
    else
      ("c_" ++ d2, lv)
  else if dtype == "va_list" then ("c_void_p", lv)
  else (dtype, lv)

/-- The typename function of the source: raw C type token, pointer depth and
    array length to a ctypes type expression. -/
def typename (unsigned : Bool) (dtype : String) (ptr_level : Nat)
    (array_len : Int) : String :=
  let p := typenameBase unsigned (stripCharsStr dtype [' ']) ptr_level
  let d := if array_len > 0 then p.1 ++ " * " ++ toString array_len else p.1
  let d := wrapPointer p.2 d
  if d == "c_void" then "None" else d

/-- The character loop of to_snake_case, carrying the last flag
    (true when the previous character was uppercase, or at the start). -/
def snakeAux : Bool → List Char → List Char
  | _, [] => []
  | last, c :: cs =>
    if c.isUpper then
      (if last then [c.toLower] else ['_', c.toLower]) ++ snakeAux true cs
    else
      c.toLower :: snakeAux false cs

/-- The to_snake_case function of the source. -/
def to_snake_case (camel_case : String) : String :=
  String.mk (snakeAux true camel_case.toList)

/-- The word-boundary folding as the specification document words it:
    walking the tail with the predecessor character at hand, insert an
    underscore before an uppercase character whose predecessor is not
    uppercase, lowercasing everything. -/
def snakeSpecAux : Char → List Char → List Char
  | _, [] => []
  | p, c :: cs =>
    (if c.isUpper ∧ ¬ p.isUpper then ['_', c.toLower] else [c.toLower])
      ++ snakeSpecAux c cs

/-- Name-case folding defined from the specification text: an underscore is
    inserted immediately before each uppercase character that is not the
    first character and is not immediately preceded by another uppercase
    character, then every character is lowercased. -/
def snakeSpec (s : String) : String :=
  match s.toList with
  | [] => ""
  | c :: cs => String.mk (c.toLower :: snakeSpecAux c cs)

/-- Consume an exact literal prefix, returning the rest. -/
def expect (lit cs : List Char) : Option (List Char) :=
  if lit.isPrefixOf cs then some (cs.drop lit.length) else none

/-- Split off a maximal (possibly empty) run of word characters. -/
def takeWord (cs : List Char) : List Char × List Char :=
  (cs.takeWhile isWordChar, cs.dropWhile isWordChar)

/-- RULE_COMMENT, the anchored pattern of two slashes, a space and a
    capture of the remaining text. -/
def matchComment (line : String) : Option String :=
  match expect "// ".toList line.toList with
  | none => none
  | some cs => some (String.mk cs)

/-- RULE_PROCESS: two slashes, space, at-sign, a directive word and an
    optional space-separated decimal count. -/
def matchProcess (line : String) : Option (String × Option String) :=
  match expect "// @".toList line.toList with
  | none => none
  | some cs =>
    let (w, rest) := takeWord cs
    if w.isEmpty then none
    else
      let cnt : Option String :=
        match rest with
        | ' ' :: cs2 =>
          let ds := cs2.takeWhile Char.isDigit
          if ds.isEmpty then none else some (String.mk ds)
        | _ => none
      some (String.mk w, cnt)

/-- RULE_DEFINE: optional whitespace, the define keyword, a name and a
    value drawn from the class [a-zA-Z0-9./()]. -/
def matchDefine (line : String) : Option (String × String) :=
  match expect "#define".toList (line.toList.dropWhile isSpaceChar) with
  | none => none
  | some cs =>
    if (cs.takeWhile isSpaceChar).isEmpty then none else
    let cs := cs.dropWhile isSpaceChar
    let (name, cs) := takeWord cs
    if name.isEmpty then none else
    if (cs.takeWhile isSpaceChar).isEmpty then none else
    let cs := cs.dropWhile isSpaceChar
    let v := cs.takeWhile isDefineValueChar
    if v.isEmpty then none else some (String.mk name, String.mk v)

/-- Helper for RULE_COLOR_DEFINES: n+1 runs of digits joined by a comma and
    a space, returning the captured span and the rest. -/
def parseDigitsSep : Nat → List Char → Option (List Char × List Char)
  | n, cs =>
    let ds := cs.takeWhile Char.isDigit
    if ds.isEmpty then none else
    let rest := cs.dropWhile Char.isDigit
    match n with
    | 0 => some (ds, rest)
    | m + 1 =>
      match expect ", ".toList rest with
      | none => none
      | some rest2 =>
        match parseDigitsSep m rest2 with
        | none => none
        | some (span, rest3) => some (ds ++ ", ".toList ++ span, rest3)

/-- RULE_COLOR_DEFINES: a define of a CLITERAL Color construction with four
    channel values and a required trailing whitespace-plus-comment capture. -/
def matchColorDefines (line : String) : Option (String × String × String) :=
  match expect "#define".toList line.toList with
  | none => none
  | some cs =>
    if (cs.takeWhile isSpaceChar).isEmpty then none else
    let cs := cs.dropWhile isSpaceChar
    let (name, cs) := takeWord cs
    if name.isEmpty then none else
    if (cs.takeWhile isSpaceChar).isEmpty then none else
    let cs := cs.dropWhile isSpaceChar
    match expect "CLITERAL(Color)\x7b ".toList cs with
    | none => none
    | some cs =>
      match parseDigitsSep 3 cs with
      | none => none
      | some (span, rest) =>
        match expect " \x7d".toList rest with
        | none => none
        | some rest =>
          match rest with
          | [] => none
          | c :: _ =>
            if isSpaceChar c then
              some (String.mk name, String.mk span, String.mk rest)
            else none

/-- RULE_STRUCT_EMPTY: a typedef of a named struct to a name. -/
def matchStructEmpty (line : String) : Option (String × String) :=
  match expect "typedef struct ".toList line.toList with
  | none => none
  | some cs =>
    let (w1, cs1) := takeWord cs
    if w1.isEmpty then none else
    match cs1 with
    | ' ' :: cs2 =>
      let (w2, cs3) := takeWord cs2
      if w2.isEmpty then none else
      match cs3 with
      | ';' :: _ => some (String.mk w1, String.mk w2)
      | _ => none
    | _ => none

/-- RULE_STRUCT_BEGIN: a typedef of a named struct opening a brace. -/
def matchStructBegin (line : String) : Option String :=
  match expect "typedef struct ".toList line.toList with
  | none => none
  | some cs =>
    let (w, cs1) := takeWord cs
    if w.isEmpty then none else
    match expect " \x7b".toList cs1 with
    | some _ => some (String.mk w)
    | none => none

/-- One name unit of RULE_STRUCT_MEMBER: a word with an optional bracketed
    decimal array suffix; the suffix group simply fails to participate when
    incomplete, as with the optional regex group. -/
def parseNameUnit (cs : List Char) : Option (List Char × List Char) :=
  let (w, rest) := takeWord cs
  if w.isEmpty then none else
  match rest with
  | '[' :: cs2 =>
    let ds := cs2.takeWhile Char.isDigit
    if ds.isEmpty then some (w, rest)
    else
      match cs2.drop ds.length with
      | ']' :: rest2 => some (w ++ '[' :: (ds ++ [']']), rest2)
      | _ => some (w, rest)
  | _ => some (w, rest)

/-- Repetition of further comma-space-separated name units. -/
def parseNameListMore : Nat → List Char → List Char → Option (List Char × List Char)
  | 0, span, rest => some (span, rest)
  | fuel + 1, span, rest =>
    match expect ", ".toList rest with
    | none => some (span, rest)
    | some cs2 =>
      match parseNameUnit cs2 with
      | none => some (span, rest)
      | some (u, rest2) => parseNameListMore fuel (span ++ ", ".toList ++ u) rest2

/-- The full name-list group of RULE_STRUCT_MEMBER. -/
def parseNameList (cs : List Char) : Option (List Char × List Char) :=
  match parseNameUnit cs with
  | none => none
  | some (span, rest) => parseNameListMore cs.length span rest

/-- The part of RULE_STRUCT_MEMBER after the optional unsigned token: a word,
    one space, a run of stars, the name list and a semicolon; returns the
    type text (word, space and stars) and the name-list text. -/
def structMemberCore (cs : List Char) : Option (String × String) :=
  let (w, cs1) := takeWord cs
  if w.isEmpty then none else
  match cs1 with
  | ' ' :: cs2 =>
    let stars := cs2.takeWhile (· = '*')
    let cs3 := cs2.dropWhile (· = '*')
    match parseNameList cs3 with
    | none => none
    | some (span, rest) =>
      match rest with
      | ';' :: _ => some (String.mk (w ++ ' ' :: stars), String.mk span)
      | _ => none
  | _ => none

/-- RULE_STRUCT_MEMBER.  The leading whitespace-plus group interplay of the
    pattern resolves to two deterministic alternatives: either the unsigned
    token follows the whitespace run, or the run ends in a plain space that
    the group consumes (so at least two leading whitespace characters are
    needed in that case); captures the type text and the name-list text. -/
def matchStructMember (line : String) : Option (String × String) :=
  let cs := line.toList
  let ws := cs.takeWhile isSpaceChar
  let rest := cs.dropWhile isSpaceChar
  if ws.isEmpty then none else
  let tryUnsigned : Option (String × String) :=
    match expect "unsigned ".toList rest with
    | none => none
    | some cs2 => (structMemberCore cs2).map (fun p => ("unsigned " ++ p.1, p.2))
  match tryUnsigned with
  | some r => some r
  | none =>
    if ws.length ≥ 2 ∧ ws.getLast? = some ' ' then
      (structMemberCore rest).map (fun p => (" " ++ p.1, p.2))
    else none

/-- RULE_STRUCT_MEMBER_ARRAY: a word with a bracketed decimal suffix,
    anchored at the start. -/
def matchStructMemberArray (s : String) : Option (String × String) :=
  let (w, cs1) := takeWord s.toList
  if w.isEmpty then none else
  match cs1 with
  | '[' :: cs2 =>
    let ds := cs2.takeWhile Char.isDigit
    if ds.isEmpty then none else
    match cs2.drop ds.length with
    | ']' :: _ => some (String.mk w, String.mk ds)
    | _ => none
  | _ => none

/-- RULE_STRUCT_END and RULE_ENUM_END: a closing brace, a space, a name and
    a semicolon. -/
def matchStructEnd (line : String) : Option String :=
  match expect "\x7d ".toList line.toList with
  | none => none
  | some cs =>
    let (w, rest) := takeWord cs
    if w.isEmpty then none else
    match rest with
    | ';' :: _ => some (String.mk w)
    | _ => none

/-- RULE_TYPE_ALIAS_DEFINE: define of a name to a type name with a required
    trailing comment. -/
def matchTypeAliasDefine (line : String) : Option (String × String) :=
  match expect "#define".toList (line.toList.dropWhile isSpaceChar) with
  | none => none
  | some cs =>
    if (cs.takeWhile isSpaceChar).isEmpty then none else
    let cs := cs.dropWhile isSpaceChar
    let (w1, cs1) := takeWord cs
    if w1.isEmpty then none else
    if (cs1.takeWhile isSpaceChar).isEmpty then none else
    let cs1 := cs1.dropWhile isSpaceChar
    let (w2, cs2) := takeWord cs1
    if w2.isEmpty then none else
    if (cs2.takeWhile isSpaceChar).isEmpty then none else
    match expect "// ".toList (cs2.dropWhile isSpaceChar) with
    | some _ => some (String.mk w1, String.mk w2)
    | none => none

/-- RULE_TYPE_ALIAS_TYPEDEF: a typedef of one type name to another. -/
def matchTypeAliasTypedef (line : String) : Option (String × String) :=
  match expect "typedef".toList (line.toList.dropWhile isSpaceChar) with
  | none => none
  | some cs =>
    if (cs.takeWhile isSpaceChar).isEmpty then none else
    let cs := cs.dropWhile isSpaceChar
    let (w1, cs1) := takeWord cs
    if w1.isEmpty then none else
    if (cs1.takeWhile isSpaceChar).isEmpty then none else
    let cs1 := cs1.dropWhile isSpaceChar
    let (w2, cs2) := takeWord cs1
    if w2.isEmpty then none else
    match cs2 with
    | ';' :: _ => some (String.mk w1, String.mk w2)
    | _ => none

/-- RULE_ENUM_BEGIN: the fixed enum-opening line shape. -/
def matchEnumBegin (line : String) : Bool :=
  "typedef enum \x7b".toList.isPrefixOf line.toList

/-- RULE_ENUM_MEMBER: leading whitespace and a bare word; the optional comma
    and trailing text constrain nothing. -/
def matchEnumMember (line : String) : Option String :=
  let cs := line.toList
  if (cs.takeWhile isSpaceChar).isEmpty then none else
  let (w, _) := takeWord (cs.dropWhile isSpaceChar)
  if w.isEmpty then none else some (String.mk w)

/-- RULE_ENUM_MEMBER_VALUE: leading whitespace, a word, whitespace, an
    equals sign and space, and a decimal value. -/
def matchEnumMemberValue (line : String) : Option (String × String) :=
  let cs := line.toList
  if (cs.takeWhile isSpaceChar).isEmpty then none else
  let (w, cs1) := takeWord (cs.dropWhile isSpaceChar)
  if w.isEmpty then none else
  if (cs1.takeWhile isSpaceChar).isEmpty then none else
  match expect "= ".toList (cs1.dropWhile isSpaceChar) with
  | none => none
  | some cs2 =>
    let ds := cs2.takeWhile Char.isDigit
    if ds.isEmpty then none else some (String.mk w, String.mk ds)

/-- RULE_NAME_ALIAS: an anchored define of one name to another. -/
def matchNameAlias (line : String) : Option (String × String) :=
  match expect "#define ".toList line.toList with
  | none => none
  | some cs =>
    let (w1, cs1) := takeWord cs
    if w1.isEmpty then none else
    if (cs1.takeWhile isSpaceChar).isEmpty then none else
    let (w2, _) := takeWord (cs1.dropWhile isSpaceChar)
    if w2.isEmpty then none else some (String.mk w1, String.mk w2)

/-- The greedy dot-star followed by a semicolon: content up to the last
    semicolon of the remaining text. -/
def splitLastSemicolon (cs : List Char) : Option (List Char) :=
  match cs.reverse.dropWhile (fun c => c ≠ ';') with
  | ';' :: rest => some rest.reverse
  | _ => none

/-- RULE_CALLBACK_NOTATION: a typedef of a return type to a starred name in
    parentheses with a parameter text ended by the last semicolon. -/
def matchCallback (line : String) : Option (String × String × String) :=
  match expect "typedef ".toList line.toList with
  | none => none
  | some cs =>
    let (w1, cs1) := takeWord cs
    if w1.isEmpty then none else
    if (cs1.takeWhile isSpaceChar).isEmpty then none else
    match expect "(*".toList (cs1.dropWhile isSpaceChar) with
    | none => none
    | some cs2 =>
      let (w2, cs3) := takeWord cs2
      if w2.isEmpty then none else
      match cs3 with
      | ')' :: cs4 =>
        (splitLastSemicolon cs4).map
          (fun g3 => (String.mk w1, String.mk w2, String.mk g3))
      | _ => none

/-- The tail of RULE_FUNCTION after the optional qualifiers: base word,
    space, stars, name and the parameter text up to the last semicolon. -/
def functionTail (unsigned : Bool) (cs : List Char) :
    Option (Bool × String × Nat × String × String) :=
  let (w, cs1) := takeWord cs
  if w.isEmpty then none else
  match cs1 with
  | ' ' :: cs2 =>
    let stars := cs2.takeWhile (· = '*')
    let cs3 := cs2.dropWhile (· = '*')
    let (nm, cs4) := takeWord cs3
    if nm.isEmpty then none else
    (splitLastSemicolon cs4).map
      (fun g6 => (unsigned, String.mk w, stars.length, String.mk nm, String.mk g6))
  | _ => none

/-- RULE_FUNCTION after the const resolution: the optional unsigned token,
    with the regex backtracking into the plain alternative on failure. -/
def functionCore (cs : List Char) : Option (Bool × String × Nat × String × String) :=
  match (match expect "unsigned ".toList cs with
         | some cs2 => functionTail true cs2
         | none => none) with
  | some r => some r
  | none => functionTail false cs

/-- RULE_FUNCTION: the RLAPI marker, optional const and unsigned tokens, the
    return type, pointer stars, name and parameter text. -/
def matchFunction (line : String) : Option (Bool × String × Nat × String × String) :=
  match expect "RLAPI ".toList line.toList with
  | none => none
  | some cs =>
    match (match expect "const ".toList cs with
           | some cs2 => functionCore cs2
           | none => none) with
    | some r => some r
    | none => functionCore cs

/-- The tail of RULE_PARAM after the optional qualifiers. -/
def paramTail (unsigned : Bool) (cs : List Char) :
    Option (Bool × String × Nat × String) :=
  let (w, cs1) := takeWord cs
  if w.isEmpty then none else
  match cs1 with
  | ' ' :: cs2 =>
    let stars := cs2.takeWhile (· = '*')
    let cs3 := cs2.dropWhile (· = '*')
    let (nm, _) := takeWord cs3
    if nm.isEmpty then none else
    some (unsigned, String.mk w, stars.length, String.mk nm)
  | _ => none

/-- RULE_PARAM after the const resolution. -/
def paramCore (cs : List Char) : Option (Bool × String × Nat × String) :=
  match (match expect "unsigned ".toList cs with
         | some cs2 => paramTail true cs2
         | none => none) with
  | some r => some r
  | none => paramTail false cs

/-- RULE_PARAM: optional const and unsigned tokens, a base type word, a
    space, pointer stars and a parameter name. -/
def matchParam (s : String) : Option (Bool × String × Nat × String) :=
  let cs := s.toList
  match (match expect "const ".toList cs with
         | some cs2 => paramCore cs2
         | none => none) with
  | some r => some r
  | none => paramCore cs

/-- The search step of the RULE_REALNUM_SUFFIX replace loop: find the
    leftmost maximal digit run immediately followed by an f or d suffix
    (only the maximal run can satisfy the pattern, since every shorter run
    is followed by a further digit). -/
def findRealnumGo (run : List Char) : List Char → Option (List Char × Char)
  | [] => none
  | c :: cs =>
    if c.isDigit then findRealnumGo (run ++ [c]) cs
    else if run ≠ [] ∧ (c = 'f' ∨ c = 'd') then some (run, c)
    else findRealnumGo [] cs

/-- Search of the RULE_REALNUM_SUFFIX pattern on a line of text. -/
def findRealnum (cs : List Char) : Option (List Char × Char) :=
  findRealnumGo [] cs

/-- The Regex.replace loop specialized to RULE_REALNUM_SUFFIX: while a digit
    run with an f or d suffix occurs, replace every occurrence of the whole
    match by the digits alone.  Each round strictly shortens the text, so
    fuel equal to the initial length suffices. -/
def realnumReplaceFuel : Nat → List Char → List Char
  | 0, s => s
  | fuel + 1, s =>
    match findRealnum s with
    | none => s
    | some (digits, sfx) =>
      realnumReplaceFuel fuel (replaceAll (digits ++ [sfx]) digits s)

/-- RULE_REALNUM_SUFFIX.replace of the source. -/
def realnumReplace (s : List Char) : List Char :=
  realnumReplaceFuel s.length s

/-- Python name.split(sep, 1) partial model at underscore: the text before
    the first underscore and the text after it, or none when the string has
    no underscore (in which case the two-name unpacking raises ValueError). -/
def splitFirstAux : List Char → Option (List Char × List Char)
  | [] => none
  | c :: cs =>
    if c = '_' then some ([], cs)
    else (splitFirstAux cs).map (fun p => (c :: p.1, p.2))

/-- The split of EnumData.add_member lifted to String. -/
def splitFirst (s : String) : Option (String × String) :=
  (splitFirstAux s.toList).map (fun p => (String.mk p.1, String.mk p.2))

/-- Python substring containment, the in operator on str. -/
def listContainsSub (sub : List Char) : List Char → Bool
  | [] => sub.isEmpty
  | c :: cs => sub.isPrefixOf (c :: cs) || listContainsSub sub cs

/-- Python dict assignment d[k] = v on an insertion-ordered association
    list: overwrite in place when the key exists, append otherwise. -/
def dictInsert (m : List (String × String)) (k v : String) :
    List (String × String) :=
  if m.any (fun p => p.1 == k) then
    m.map (fun p => if p.1 == k then (k, v) else p)
  else m ++ [(k, v)]

/-- The EnumData builder.  The prefix attribute of the source is called pfx
    here (prefix is reserved in this development). -/
structure EnumData where
  doc : String
  name : String
  members : List (String × String)
  pfx : String
  correct : Bool
deriving Repr, DecidableEq

/-- EnumData.add_member: split the raw name at the first underscore (a
    ValueError aborts the run when there is none), mark the enum corrected
    when the remainder starts with a digit (an IndexError aborts when the
    remainder is empty), record the first prefix, and store the member. -/
def EnumData.add_member (e : EnumData) (name : String) (value : String) :
    Except PyError EnumData :=
  match splitFirst name with
  | none => .error .valueError
  | some (p, mname) =>
    match mname.toList with
    | [] => .error .indexError
    | c :: _ =>
      let e := if c.isDigit then { e with correct := true } else e
      let e := if e.pfx == "" then { e with pfx := p } else e
      .ok { e with members := dictInsert e.members mname value }

/-- EnumData.convert: assert a name and at least one member, then emit the
    IntEnum class, the member lines, the per-member aliases, and register
    the names in the export list.  Indexing an empty prefix while corrected
    raises, as in the source; the partial list mutations made before a
    Python assert fires never reach the output because the exception aborts
    the whole run, so the error-first form is observationally the same. -/
def EnumData.convert (e : EnumData) (lines exp : List String) :
    Except PyError (List String × List String) :=
  if e.name == "" then .error (.assertionError "Enum name is undefined.")
  else if e.members.length == 0 then .error (.assertionError "Enum is empty.")
  else if e.correct && e.pfx == "" then .error .indexError
  else
    let p0 := String.mk (e.pfx.toList.take 1)
    let exp := exp ++ ["    '" ++ e.name ++ "',"]
    let lines := lines ++ ["", "class " ++ e.name ++ "(IntEnum):"]
    let lines :=
      if e.doc ≠ "" then lines ++ ["    \"\"\"" ++ e.doc ++ "\"\"\""] else lines
    let lines := lines ++ e.members.map (fun m =>
      if e.correct then "    " ++ p0 ++ m.1 ++ " = " ++ m.2
      else "    " ++ m.1 ++ " = " ++ m.2)
    let lines := lines ++ ["\n"]
    let lines := lines ++ e.members.map (fun m =>
      if e.correct then e.pfx ++ "_" ++ m.1 ++ " = " ++ e.name ++ "." ++ p0 ++ m.1
      else e.pfx ++ "_" ++ m.1 ++ " = " ++ e.name ++ "." ++ m.1)
    let exp := exp ++ e.members.map (fun m =>
      "    '" ++ e.pfx ++ "_" ++ m.1 ++ "',")
    .ok (lines ++ [""], exp)

/-- One struct field record of the source. -/
structure StructFieldData where
  name : String := ""
  type : String := ""
  unsigned : Bool := false
  ptr_level : Nat := 0
  array_len : Int := -1
deriving Repr, DecidableEq

/-- StructFieldData.convert: the field line appended to the class body. -/
def StructFieldData.convert (f : StructFieldData) : String :=
  let dtype := typename f.unsigned f.type f.ptr_level f.array_len
  "       ('" ++ f.name ++ "', " ++ dtype ++ "),"

/-- The StructData builder. -/
structure StructData where
  doc : String
  name : String
  fields : List StructFieldData
deriving Repr, DecidableEq

/-- StructData.add_field: split a comma-space-joined name list, and per name
    derive pointer depth from the star count, the unsigned flag from token
    containment, the base type by stripping stars, spaces and the unsigned
    token, and the array length from the optional capture (the empty capture
    is falsy and leaves the default). -/
def StructData.add_field (s : StructData) (name ftype : String)
    (array_len : Option String) : StructData :=
  let names := if name.toList.contains ',' then splitOnStr name ", " else [name]
  let mk : String → StructFieldData := fun n =>
    { name := n,
      type := String.mk (replaceAll "unsigned".toList []
        (stripChars (stripChars ftype.toList ['*']) [' '])),
      unsigned := listContainsSub "unsigned".toList ftype.toList,
      ptr_level := ftype.toList.count '*',
      array_len := match array_len with
        | some l => if l.isEmpty then -1 else (digitsToNat l.toList : Int)
        | none => -1 }
  { s with fields := s.fields ++ names.map mk }

/-- StructData.convert: emit the Structure class with the fields in
    declaration order and register the struct name; the source performs no
    validation here, so this is a total function. -/
def StructData.convert (s : StructData) (lines exports : List String) :
    List String × List String :=
  let lines := lines ++ ["", "class " ++ s.name ++ "(Structure):"]
  let lines :=
    if s.doc ≠ "" then lines ++ ["    \"\"\"" ++ s.doc ++ "\"\"\""] else lines
  let lines := lines ++ ["    _fields_ = ["]
  let lines := lines ++ s.fields.map StructFieldData.convert
  let lines := lines ++ ["    ]", ""]
  (lines, exports ++ ["    '" ++ s.name ++ "',"])

/-- One function parameter record of the source. -/
structure FunctionParamData where
  name : String := ""
  type : String := ""
  ptr_level : Nat := 0
  unsigned : Bool := false
  is_varargs : Bool := false
deriving Repr, DecidableEq

/-- FunctionParamData.py_name. -/
def FunctionParamData.py_name (p : FunctionParamData) : String :=
  if !p.is_varargs then to_snake_case p.name else "*args"

/-- FunctionParamData.convert_to_string. -/
def FunctionParamData.convert_to_string (p : FunctionParamData) : String :=
  if p.is_varargs then "*args"
  else
    let dtype := typename p.unsigned p.type p.ptr_level (-1)
    let dtype := ((C_TO_PY_TYPES.lookup dtype).getD dtype)
    to_snake_case p.name ++ ": " ++ dtype

/-- The FunctionData record of the source. -/
structure FunctionData where
  name : String := ""
  rettype : String := ""
  ptr_level : Nat := 0
  unsigned : Bool := false
  params : List FunctionParamData := []
deriving Repr, DecidableEq

/-- The fresh parameter record a variadic marker produces. -/
def varargsParam : FunctionParamData := { is_varargs := true }

/-- FunctionData.add_param. -/
def FunctionData.add_param (f : FunctionData) (unsigned : Bool) (ptype : String)
    (ptr_level : Nat) (name : String) (is_varargs : Bool) : FunctionData :=
  let param : FunctionParamData :=
    if is_varargs then varargsParam
    else { unsigned := unsigned, type := ptype, ptr_level := ptr_level,
           name := name }
  { f with params := f.params ++ [param] }

/-- FunctionData.convert: the argtypes and restype assignments and the
    wrapper definition; variadic markers are excluded from the native
    argument-type and argument-name lists, and a None-typed wrapper body
    performs no return (the is-identity test of the source on the interned
    literal behaves as string equality). -/
def FunctionData.convert (f : FunctionData) (lines exports : List String) :
    List String × List String :=
  let dtype := typename f.unsigned f.rettype f.ptr_level (-1)
  let pydtype := (C_TO_PY_TYPES.lookup dtype).getD dtype
  let py_name := to_snake_case f.name
  let params := String.intercalate ", "
    (f.params.map FunctionParamData.convert_to_string)
  let ptypes := String.intercalate ", "
    ((f.params.filter (fun p => !p.is_varargs)).map
      (fun p => typename p.unsigned p.type p.ptr_level (-1)))
  let pnames := String.intercalate ", "
    ((f.params.filter (fun p => !p.is_varargs)).map FunctionParamData.py_name)
  (lines ++
    ["",
     "_rl." ++ f.name ++ ".argtypes = [" ++ ptypes ++ "]",
     "_rl." ++ f.name ++ ".restype = " ++ dtype,
     "def " ++ py_name ++ "(" ++ params ++ ") -> " ++ pydtype ++ ":",
     "    " ++ (if pydtype == "None" then "" else "return ")
       ++ "_rl." ++ f.name ++ "(" ++ pnames ++ ")",
     ""],
   exports ++ ["    '" ++ py_name ++ "',"])

/-- The regex objects a directive can place in the active rule list,
    identified by name; dispatch in the driver is by object identity. -/
inductive Rule where
  | DEFINE | COLOR_DEFINES | STRUCT_EMPTY | STRUCT_MEMBER | STRUCT_BEGIN
  | STRUCT_END | TYPE_ALIAS_DEFINE | TYPE_ALIAS_TYPEDEF | ENUM_BEGIN
  | ENUM_MEMBER | ENUM_MEMBER_VALUE | ENUM_END | NAME_ALIAS
  | CALLBACK_NOTATION | FUNCTION
deriving Repr, DecidableEq, BEq

/-- Python list.remove: drop the first occurrence, raising ValueError when
    the element is absent. -/
def listRemove (rs : List Rule) (r : Rule) : Except PyError (List Rule) :=
  if rs.contains r then .ok (rs.erase r) else .error .valueError

/-- Chained removals for the directives that deactivate several rules. -/
def listRemoveMany (rs : List Rule) : List Rule → Except PyError (List Rule)
  | [] => .ok rs
  | r :: more =>
    match listRemove rs r with
    | .error e => .error e
    | .ok rs2 => listRemoveMany rs2 more

/-- The whole mutable state of one wrap_header run: the local variables of
    the function body plus the class-level current attributes of EnumData
    and StructData (the only state that survives a run). -/
structure GenState where
  active_rules : List Rule
  exported_names : List String
  generated_code : List String
  funcion_wrappers : List String
  palette : List String
  callback_counter : Int
  define_alias_counter : Int
  last_comment : String
  enumCurrent : Option EnumData
  structCurrent : Option StructData
deriving Repr, DecidableEq

/-- The local-variable initialization of wrap_header, parameterized by the
    class-level builder state left behind by earlier calls. -/
def initState (enumCur : Option EnumData) (structCur : Option StructData) :
    GenState :=
  { active_rules := [], exported_names := ["__all__ = ["],
    generated_code := [], funcion_wrappers := [], palette := [],
    callback_counter := 0, define_alias_counter := 0, last_comment := "",
    enumCurrent := enumCur, structCurrent := structCur }

/-- The directive dispatch of the driver: activate or deactivate rule
    groups, install countdowns (int of a missing count raises TypeError),
    and silently ignore unrecognized commands. -/
def applyDirective (st : GenState) (cmd : String) (count : Option String) :
    Except PyError GenState :=
  if cmd == "define_begin" then
    .ok { st with active_rules := st.active_rules ++ [.DEFINE] }
  else if cmd == "define_end" then
    match listRemove st.active_rules .DEFINE with
    | .error e => .error e
    | .ok rs => .ok { st with active_rules := rs,
                              generated_code := st.generated_code ++ [""] }
  else if cmd == "functions_begin" then
    .ok { st with active_rules := st.active_rules ++ [.FUNCTION] }
  else if cmd == "functions_end" then
    match listRemove st.active_rules .FUNCTION with
    | .error e => .error e
    | .ok rs => .ok { st with active_rules := rs }
  else if cmd == "struct_begin" then
    .ok { st with active_rules := st.active_rules ++
      [.STRUCT_BEGIN, .STRUCT_EMPTY, .STRUCT_MEMBER, .STRUCT_END,
       .TYPE_ALIAS_TYPEDEF, .TYPE_ALIAS_DEFINE] }
  else if cmd == "struct_end" then
    match listRemoveMany st.active_rules
      [.STRUCT_BEGIN, .STRUCT_EMPTY, .STRUCT_MEMBER, .STRUCT_END,
       .TYPE_ALIAS_TYPEDEF, .TYPE_ALIAS_DEFINE] with
    | .error e => .error e
    | .ok rs => .ok { st with active_rules := rs }
  else if cmd == "enum_begin" then
    .ok { st with active_rules := st.active_rules ++
      [.ENUM_BEGIN, .ENUM_MEMBER, .ENUM_MEMBER_VALUE, .ENUM_END] }
  else if cmd == "enum_end" then
    match listRemoveMany st.active_rules
      [.ENUM_BEGIN, .ENUM_MEMBER, .ENUM_MEMBER_VALUE, .ENUM_END] with
    | .error e => .error e
    | .ok rs => .ok { st with active_rules := rs }
  else if cmd == "callback_notation" then
    match count with
    | none => .error .typeError
    | some ds =>
      .ok { st with callback_counter := (digitsToNat ds.toList : Int),
                    active_rules := st.active_rules ++ [.CALLBACK_NOTATION] }
  else if cmd == "color_defines_begin" then
    .ok { st with active_rules := st.active_rules ++ [.COLOR_DEFINES] }
  else if cmd == "color_defines_end" then
    match listRemove st.active_rules .COLOR_DEFINES with
    | .error e => .error e
    | .ok rs => .ok { st with active_rules := rs }
  else if cmd == "define_name_alias" then
    match count with
    | none => .error .typeError
    | some ds =>
      .ok { st with define_alias_counter := (digitsToNat ds.toList : Int),
                    active_rules := st.active_rules ++ [.NAME_ALIAS] }
  else .ok st

/-- The per-parameter step of the loop over the split parameter text of a
    matched function declaration: a literal ellipsis records a variadic
    marker, a matched parameter shape records a parameter, and a
    non-matching piece is silently dropped. -/
def functionFoldStep (f : FunctionData) (p : String) : FunctionData :=
  if p == "..." then f.add_param false "" 0 "" true
  else
    match matchParam p with
    | some (u, t, l, n) => f.add_param u t l n false
    | none => f

/-- The per-rule body of the inner dispatch of the driver: try the rule on
    the line and, on a match, run the block the source guards with the
    identity test for that rule. -/
def applyRule (st : GenState) (line : String) (r : Rule) :
    Except PyError GenState :=
  match r with
  | .NAME_ALIAS =>
    match matchNameAlias line with
    | none => .ok st
    | some (g1, g2) =>
      let st := { st with
        generated_code := st.generated_code ++ [g1 ++ " = " ++ g2],
        exported_names := st.exported_names ++ ["    '" ++ g1 ++ "',"],
        define_alias_counter := st.define_alias_counter - 1 }
      if st.define_alias_counter ≤ (0 : Int) then
        match listRemove st.active_rules .NAME_ALIAS with
        | .error e => .error e
        | .ok rs => .ok { st with active_rules := rs,
                                  generated_code := st.generated_code ++ [""] }
      else .ok st
  | .TYPE_ALIAS_TYPEDEF =>
    match matchTypeAliasTypedef line with
    | none => .ok st
    | some (g1, g2) =>
      .ok { st with
        generated_code := st.generated_code ++ ["\n" ++ g2 ++ " = " ++ g1 ++ "\n"],
        exported_names := st.exported_names ++ ["    '" ++ g2 ++ "',"] }
  | .TYPE_ALIAS_DEFINE =>
    match matchTypeAliasDefine line with
    | none => .ok st
    | some (g1, g2) =>
      .ok { st with
        generated_code := st.generated_code ++ ["\n" ++ g1 ++ " = " ++ g2 ++ "\n"],
        exported_names := st.exported_names ++ ["    '" ++ g1 ++ "',"] }
  | .STRUCT_EMPTY =>
    match matchStructEmpty line with
    | none => .ok st
    | some (g1, _) =>
      .ok { st with
        generated_code := st.generated_code ++
          ["\nclass " ++ g1 ++ "(Structure):\n    pass\n"],
        exported_names := st.exported_names ++ ["    '" ++ g1 ++ "',"] }
  | .DEFINE =>
    match matchDefine line with
    | none => .ok st
    | some (g1, g2) =>
      let value := String.mk (realnumReplace g2.toList)
      .ok { st with
        generated_code := st.generated_code ++ [g1 ++ " = " ++ value],
        exported_names := st.exported_names ++ ["    '" ++ g1 ++ "',"] }
  | .ENUM_BEGIN =>
    if matchEnumBegin line then
      match st.enumCurrent with
      | some _ => .error (.assertionError "Overlapped Enumeration.")
      | none =>
        let e : EnumData :=
          { doc := st.last_comment, name := "", members := [],
            pfx := "", correct := false }
        .ok { st with enumCurrent := some e }
    else .ok st
  | .ENUM_MEMBER =>
    match matchEnumMember line with
    | none => .ok st
    | some g1 =>
      match st.enumCurrent with
      | none => .error .attributeError
      | some e =>
        match e.add_member g1 "auto()" with
        | .error er => .error er
        | .ok e2 => .ok { st with enumCurrent := some e2 }
  | .ENUM_MEMBER_VALUE =>
    match matchEnumMemberValue line with
    | none => .ok st
    | some (g1, g2) =>
      match st.enumCurrent with
      | none => .error .attributeError
      | some e =>
        match e.add_member g1 g2 with
        | .error er => .error er
        | .ok e2 => .ok { st with enumCurrent := some e2 }
  | .ENUM_END =>
    match matchStructEnd line with
    | none => .ok st
    | some g1 =>
      match st.enumCurrent with
      | none => .error .attributeError
      | some e =>
        match EnumData.convert { e with name := g1 }
                st.generated_code st.exported_names with
        | .error er => .error er
        | .ok (ls, ex) =>
          .ok { st with generated_code := ls, exported_names := ex,
                        enumCurrent := none }
  | .COLOR_DEFINES =>
    match matchColorDefines line with
    | none => .ok st
    | some (g1, g2, g3) =>
      let color_comment := replaceAllStr g3 "//" "#"
      .ok { st with palette := st.palette ++
        [g1 ++ " = Color(" ++ g2 ++ ") " ++ color_comment] }
  | .STRUCT_BEGIN =>
    match matchStructBegin line with
    | none => .ok st
    | some g1 =>
      match st.structCurrent with
      | some _ => .error (.assertionError "Overlapped Structure.")
      | none =>
        let sd : StructData := { doc := st.last_comment, name := g1, fields := [] }
        .ok { st with structCurrent := some sd }
  | .STRUCT_MEMBER =>
    match matchStructMember line with
    | none => .ok st
    | some (g1, g3) =>
      let na : String × Option String :=
        match matchStructMemberArray g3 with
        | some (n, l) => (n, some l)
        | none => (g3, none)
      match st.structCurrent with
      | none => .error .attributeError
      | some s =>
        .ok { st with structCurrent := some (s.add_field na.1 g1 na.2) }
  | .STRUCT_END =>
    match matchStructEnd line with
    | none => .ok st
    | some _ =>
      match st.structCurrent with
      | none => .ok st
      | some s =>
        let r := s.convert st.generated_code st.exported_names
        .ok { st with generated_code := r.1, exported_names := r.2,
                      structCurrent := none }
  | .CALLBACK_NOTATION =>
    match matchCallback line with
    | none => .ok st
    | some (_, g2, g3) =>
      let cb_params := splitOnStr (stripCharsStr g3 ['(', ')']) ", "
      let cb_ptypes := cb_params.filterMap (fun p =>
        (matchParam p).map (fun q => typename q.1 q.2.1 q.2.2.1 (-1)))
      let callback := g2 ++ " = CFUNCTYPE(" ++
        String.intercalate ", " cb_ptypes ++ ")"
      let st := { st with
        generated_code := st.generated_code ++ ["", callback, ""],
        exported_names := st.exported_names ++ ["    '" ++ g2 ++ "',"],
        callback_counter := st.callback_counter - 1 }
      if st.callback_counter ≤ (0 : Int) then
        match listRemove st.active_rules .CALLBACK_NOTATION with
        | .error e => .error e
        | .ok rs => .ok { st with active_rules := rs }
      else .ok st
  | .FUNCTION =>
    match matchFunction line with
    | none => .ok st
    | some (uns, rt, pl, nm, ps) =>
      let f : FunctionData :=
        { name := nm, rettype := rt, ptr_level := pl, unsigned := uns }
      let f :=
        if ps == "(void)" then f
        else
          let paramlist :=
            if ps.toList.contains ',' then
              splitOnStr (stripCharsStr ps ['(', ')']) ", "
            else [stripCharsStr ps ['(', ')']]
          paramlist.foldl functionFoldStep f
      let r := f.convert st.funcion_wrappers st.exported_names
      .ok { st with funcion_wrappers := r.1, exported_names := r.2 }

/-- The for loop over active_rules of the driver, by index, so that the
    removals a matched rule performs shift the iteration exactly as the
    Python for statement does; the fuel starts at the list length, which
    never grows during the loop. -/
def rulesLoop : Nat → GenState → String → Nat → Except PyError GenState
  | 0, st, _, _ => .ok st
  | fuel + 1, st, line, i =>
    if h : i < st.active_rules.length then
      match applyRule st line (st.active_rules.get ⟨i, h⟩) with
      | .error e => .error e
      | .ok st2 => rulesLoop fuel st2 line (i + 1)
    else .ok st

/-- One line of the driver loop: a matched comment stores the pending text,
    a directive clears it and mutates the rule set, and any other line runs
    through every active rule. -/
def processLine (st : GenState) (line : String) : Except PyError GenState :=
  match matchComment line with
  | some text =>
    match matchProcess line with
    | some (cmd, cnt) => applyDirective { st with last_comment := "" } cmd cnt
    | none => .ok { st with last_comment := text }
  | none => rulesLoop st.active_rules.length st line 0

/-- The forward pass of the driver over the header lines. -/
def runLines (st : GenState) : List String → Except PyError GenState
  | [] => .ok st
  | l :: ls =>
    match processLine st l with
    | .error e => .error e
    | .ok st2 => runLines st2 ls

/-- wrap_header as a function of the header lines and of the class-level
    builder state; the loader preamble text is the externally supplied
    constant block the output starts with, taken as a parameter, and the
    result is the sequence of output lines together with the class-level
    state left for a later call. -/
def wrap_header (loaderSrc : List String) (lines : List String)
    (enumCur : Option EnumData) (structCur : Option StructData) :
    Except PyError (List String × Option EnumData × Option StructData) :=
  match runLines (initState enumCur structCur) lines with
  | .error e => .error e
  | .ok st =>
    .ok (loaderSrc ++ (st.exported_names ++ ["]\n"]) ++ st.generated_code
          ++ st.palette ++ st.funcion_wrappers,
         st.enumCurrent, st.structCurrent)

/-- Modelled from the Python standard enum library (an external collaborator
    of the generator): the runtime values an IntEnum class body assigns, the
    call of auto yielding the previous value plus one and starting from one,
    an explicit decimal literal yielding itself. -/
def pyEnumValues : List String → Int → List Int
  | [], _ => []
  | v :: vs, last =>
    let x : Int := if v == "auto()" then last + 1 else (digitsToNat v.toList : Int)
    x :: pyEnumValues vs x

/-! ## Theorems -/

/-- The loop of to_snake_case agrees with the predecessor-based folding once
    the carried flag is the uppercase test of the predecessor character. -/
theorem snakeAux_spec (cs : List Char) : ∀ p : Char,
    snakeAux p.isUpper cs = snakeSpecAux p cs := by
  induction cs with
  | nil => intro p; rfl
  | cons c cs ih =>
    intro p
    have h2 := ih c
    cases hc : c.isUpper with
    | true =>
      rw [hc] at h2
      cases hp : p.isUpper <;>
        simp [snakeAux, snakeSpecAux, hc, hp, h2]
    | false =>
      rw [hc] at h2
      cases hp : p.isUpper <;>
        simp [snakeAux, snakeSpecAux, hc, hp, h2]

/-- C4 (confirmed): to_snake_case inserts an underscore immediately before
    each uppercase character that is not the first character and is not
    immediately preceded by another uppercase character, then lowercases
    every character; in particular DrawRectangleRec, IsKeyDown and RAYWHITE
    fold as the specification states. -/
theorem c4_to_snake_case :
    (∀ s : String, to_snake_case s = snakeSpec s) ∧
    to_snake_case "DrawRectangleRec" = "draw_rectangle_rec" ∧
    to_snake_case "IsKeyDown" = "is_key_down" ∧
    to_snake_case "RAYWHITE" = "raywhite" := by
  refine ⟨?_, rfl, rfl, rfl⟩
  intro s
  unfold to_snake_case snakeSpec
  cases hs : s.toList with
  | nil => rfl
  | cons c cs =>
    have h2 := snakeAux_spec cs c
    cases hc : c.isUpper <;> rw [hc] at h2 <;> simp [snakeAux, hc, h2]

/-- Length of the POINTER wrapping. -/
theorem wrapPointer_length (n : Nat) (d : String) :
    (wrapPointer n d).length = 9 * n + d.length := by
  induction n with
  | zero => simp [wrapPointer]
  | succ n ih =>
    have h8 : ("POINTER(" : String).length = 8 := rfl
    have h1 : (")" : String).length = 1 := rfl
    calc (wrapPointer (n + 1) d).length
        = 8 + (9 * n + d.length) + 1 := by
          rw [wrapPointer, String.length_append, String.length_append, h8, h1, ih]
      _ = 9 * (n + 1) + d.length := by ring

/-- A wrapped type expression is never the bare void marker unless the base
    itself has the length of that marker. -/
theorem wrapPointer_ne_c_void (n : Nat) (d : String) (h : d.length ≠ 6) :
    (wrapPointer n d == "c_void") = false := by
  rw [beq_eq_false_iff_ne]
  intro he
  have hl := congrArg String.length he
  rw [wrapPointer_length] at hl
  have h6 : ("c_void" : String).length = 6 := rfl
  rw [h6] at hl
  omega

/-- Reduction of typename through a computed base classification whose
    mapped base is longer than the bare void marker. -/
theorem typename_reduce (u : Bool) (dt : String) (lv0 : Nat) (al : Int)
    (b : String) (lvr : Nat)
    (hb : typenameBase u (stripCharsStr dt [' ']) lv0 = (b, lvr))
    (hlen : 6 < b.length) :
    typename u dt lv0 al =
      wrapPointer lvr (if al > 0 then b ++ " * " ++ toString al else b) := by
  unfold typename
  rw [hb]
  dsimp only
  have hX : ((if al > 0 then b ++ " * " ++ toString al else b) : String).length ≠ 6 := by
    by_cases h : al > 0
    · rw [if_pos h, String.length_append, String.length_append]
      omega
    · rw [if_neg h]
      omega
  rw [wrapPointer_ne_c_void lvr _ hX]
  rfl

/-- C5 (confirmed): the type mapper sends unsigned char to the unsigned
    byte primitive under every pointer depth and array length, and for char
    or void bases with positive pointer depth (not unsigned) it absorbs
    exactly one pointer level into the dedicated pointer primitive and wraps
    only the remaining depth in POINTER; in particular depth one gives
    c_char_p and depth two gives POINTER(c_char_p). -/
theorem c5_typename :
    (∀ (lv : Nat) (al : Int), typename true "char" lv al =
        wrapPointer lv (if al > 0 then "c_ubyte * " ++ toString al else "c_ubyte")) ∧
    (∀ (lv : Nat) (al : Int), typename false "char" (lv + 1) al =
        wrapPointer lv (if al > 0 then "c_char_p * " ++ toString al else "c_char_p")) ∧
    (∀ (lv : Nat) (al : Int), typename false "void" (lv + 1) al =
        wrapPointer lv (if al > 0 then "c_void_p * " ++ toString al else "c_void_p")) ∧
    typename false "char" 1 (-1) = "c_char_p" ∧
    typename false "char" 2 (-1) = "POINTER(c_char_p)" := by
  refine ⟨?_, ?_, ?_, rfl, rfl⟩
  · intro lv al
    have hb : typenameBase true (stripCharsStr "char" [' ']) lv = ("c_ubyte", lv) := by
      rw [show stripCharsStr "char" [' '] = "char" from rfl]
      simp [typenameBase, C_TYPES]
    rw [typename_reduce true "char" lv al "c_ubyte" lv hb (by decide),
        show ("c_ubyte" ++ " * " : String) = "c_ubyte * " from rfl]
  · intro lv al
    have hb : typenameBase false (stripCharsStr "char" [' ']) (lv + 1) = ("c_char_p", lv) := by
      rw [show stripCharsStr "char" [' '] = "char" from rfl]
      simp [typenameBase, C_TYPES]
    rw [typename_reduce false "char" (lv + 1) al "c_char_p" lv hb (by decide),
        show ("c_char_p" ++ " * " : String) = "c_char_p * " from rfl]
  · intro lv al
    have hb : typenameBase false (stripCharsStr "void" [' ']) (lv + 1) = ("c_void_p", lv) := by
      rw [show stripCharsStr "void" [' '] = "void" from rfl]
      simp [typenameBase, C_TYPES]
    rw [typename_reduce false "void" (lv + 1) al "c_void_p" lv hb (by decide),
        show ("c_void_p" ++ " * " : String) = "c_void_p * " from rfl]


/-- The split of add_member returns nothing exactly on names without an
    underscore. -/
theorem splitFirstAux_none_iff (cs : List Char) :
    splitFirstAux cs = none ↔ '_' ∉ cs := by
  induction cs with
  | nil => simp [splitFirstAux]
  | cons c cs ih =>
    by_cases hc : c = '_'
    · subst hc; simp [splitFirstAux]
    · simp [splitFirstAux, hc, Option.map_eq_none', ih]
      intro _ h
      exact hc h.symm

/-- C10 (corrected): add_member fails with ValueError on a raw name without
    an underscore (the two-way unpacking), and records the member when the
    name splits with a nonempty remainder; but a name whose first underscore
    is its last character also fails (IndexError on the remainder), so
    containing an underscore alone does not guarantee recording. -/
theorem c10_add_member_underscore :
    (∀ (e : EnumData) (n v : String), splitFirst n = none →
        EnumData.add_member e n v = .error .valueError) ∧
    (∀ n : String, splitFirst n = none ↔ '_' ∉ n.toList) ∧
    (∀ (e : EnumData) (n v p r : String), splitFirst n = some (p, r) → r ≠ "" →
        ∃ e2, EnumData.add_member e n v = .ok e2 ∧
          e2.members = dictInsert e.members r v) ∧
    (∀ (e : EnumData) (n v p : String), splitFirst n = some (p, "") →
        EnumData.add_member e n v = .error .indexError) := by
  refine ⟨?_, ?_, ?_, ?_⟩
  · intro e n v h
    simp [EnumData.add_member, h]
  · intro n
    simp [splitFirst, Option.map_eq_none', splitFirstAux_none_iff]
  · intro e n v p r h hr
    have hr2 : r.toList ≠ [] := by
      intro hh
      apply hr
      cases r with
      | mk data => simp at hh; simp [hh]
    cases hrl : r.toList with
    | nil => exact absurd hrl hr2
    | cons c cs =>
      simp only [EnumData.add_member, h, hrl]
      refine ⟨_, rfl, ?_⟩
      split <;> split <;> rfl
  · intro e n v p h
    simp [EnumData.add_member, h]

/-- C10 counterexample: the name with an underscore and nothing after it is
    split successfully but not recorded: add_member raises IndexError. -/
theorem c10_counterexample :
    EnumData.add_member ⟨"", "", [], "", false⟩ "A_" "auto()" =
      .error .indexError ∧ '_' ∈ "A_".toList := ⟨rfl, by decide⟩

/-- C10 witness: concrete instances of the amended statement. -/
theorem c10_witness :
    (EnumData.add_member ⟨"", "", [], "", false⟩ "KEY" "auto()" =
      .error .valueError) ∧
    (splitFirst "KEY" = none ↔ '_' ∉ "KEY".toList) ∧
    (∃ e2, EnumData.add_member ⟨"", "", [], "", false⟩ "KEY_A" "auto()" =
      .ok e2 ∧ e2.members = dictInsert [] "A" "auto()") ∧
    (EnumData.add_member ⟨"", "", [], "", false⟩ "KEY_" "auto()" =
      .error .indexError) :=
  ⟨c10_add_member_underscore.1 _ _ _ rfl,
   c10_add_member_underscore.2.1 "KEY",
   c10_add_member_underscore.2.2.1 _ _ _ "KEY" "A" rfl (by decide),
   c10_add_member_underscore.2.2.2 _ _ _ "KEY" rfl⟩

/-- C2 (corrected): EnumData.convert does assert a non-empty name and at
    least one member, but StructData.convert performs no validation at all:
    an empty name or zero fields is emitted unconditionally instead of
    failing. -/
theorem c2_struct_convert_unchecked :
    (∀ (e : EnumData) (ls ex : List String), e.name = "" →
        EnumData.convert e ls ex =
          .error (.assertionError "Enum name is undefined.")) ∧
    (∀ (e : EnumData) (ls ex : List String), e.name ≠ "" → e.members = [] →
        EnumData.convert e ls ex = .error (.assertionError "Enum is empty.")) ∧
    (∀ (ls ex : List String),
        StructData.convert ⟨"", "", []⟩ ls ex =
          (ls ++ ["", "class (Structure):", "    _fields_ = [", "    ]", ""],
           ex ++ ["    '',"])) := by
  refine ⟨?_, ?_, ?_⟩
  · intro e ls ex h
    simp [EnumData.convert, h]
  · intro e ls ex h1 h2
    simp [EnumData.convert, h1, h2]
  · intro ls ex
    simp [StructData.convert]

/-- C2 counterexample: finalizing the struct builder with an empty name and
    zero recorded fields returns emitted text instead of failing. -/
theorem c2_counterexample :
    StructData.convert ⟨"", "", []⟩ [] [] =
      (["", "class (Structure):", "    _fields_ = [", "    ]", ""],
       ["    '',"]) := rfl

/-- C2 witness: concrete instances of the amended statement. -/
theorem c2_witness :
    (EnumData.convert ⟨"", "", [("A", "auto()")], "K", false⟩ [] [] =
      .error (.assertionError "Enum name is undefined.")) ∧
    (EnumData.convert ⟨"", "Demo", [], "K", false⟩ [] [] =
      .error (.assertionError "Enum is empty.")) ∧
    (StructData.convert ⟨"", "", []⟩ ["x"] ["y"] =
      (["x", "", "class (Structure):", "    _fields_ = [", "    ]", ""],
       ["y", "    '',"])) :=
  ⟨c2_struct_convert_unchecked.1 _ [] [] rfl,
   c2_struct_convert_unchecked.2.1 _ [] [] (by decide) rfl,
   c2_struct_convert_unchecked.2.2 ["x"] ["y"]⟩

/-- C1 (code bug): an enum block of two auto-increment members is emitted
    with every member bound to the auto() call, and the Python enum library
    assigns those members the values 1 and 2 rather than the values 0 and 1
    the claim (mirroring the native C enumeration the binding must
    reproduce) requires. -/
theorem c1_enum_auto_emission :
    (runLines (initState none none)
        ["// @enum_begin", "typedef enum \x7b", "    DEMO_ONE,",
         "    DEMO_TWO,", "\x7d Demo;", "// @enum_end"]).map
      GenState.generated_code =
      .ok ["", "class Demo(IntEnum):", "    ONE = auto()", "    TWO = auto()",
           "\n", "DEMO_ONE = Demo.ONE", "DEMO_TWO = Demo.TWO", ""] ∧
    pyEnumValues ["auto()", "auto()"] 0 = [1, 2] ∧
    pyEnumValues ["auto()", "auto()"] 0 ≠ [0, 1] := ⟨rfl, rfl, by decide⟩

/-- C3 (corrected): an enum closing line with no open enum builder aborts
    the run (AttributeError when the driver assigns the name on a missing
    builder), but a struct closing line with no open struct builder is
    silently ignored by the guard of StructData.end and the run continues
    with the state unchanged. -/
theorem c3_end_without_open :
    (∀ (st : GenState) (line g : String), st.enumCurrent = none →
        matchStructEnd line = some g →
        applyRule st line .ENUM_END = .error .attributeError) ∧
    (∀ (st : GenState) (line g : String), st.structCurrent = none →
        matchStructEnd line = some g →
        applyRule st line .STRUCT_END = .ok st) := by
  constructor
  · intro st line g hc hm
    simp [applyRule, hm, hc]
  · intro st line g hc hm
    simp [applyRule, hm, hc]

/-- C3 counterexample: a struct closing line with no open struct builder
    does not abort; the state passes through unchanged. -/
theorem c3_counterexample :
    applyRule (initState none none) "\x7d Color;" Rule.STRUCT_END =
      .ok (initState none none) := rfl

/-- C3 witness: concrete instances of the amended statement. -/
theorem c3_witness :
    applyRule (initState none none) "\x7d Color;" Rule.ENUM_END =
      .error .attributeError ∧
    applyRule { initState none none with palette := ["p"] } "\x7d Color;"
        Rule.STRUCT_END =
      .ok { initState none none with palette := ["p"] } :=
  ⟨c3_end_without_open.1 _ _ "Color" rfl rfl,
   c3_end_without_open.2 _ _ "Color" rfl rfl⟩

/-- A directive line is in particular a comment line: the driver reaches the
    directive branch through the comment match. -/
theorem matchProcess_comment {line : String} {x : String × Option String}
    (h : matchProcess line = some x) :
    matchComment line = some (String.mk (line.toList.drop 3)) := by
  unfold matchProcess expect at h
  by_cases hp : "// @".toList.isPrefixOf line.toList
  · have h3 : "// ".toList.isPrefixOf line.toList :=
      List.isPrefixOf_iff_prefix.mpr
        (List.IsPrefix.trans (by decide) (List.isPrefixOf_iff_prefix.mp hp))
    unfold matchComment expect
    rw [if_pos h3]
    rfl
  · rw [if_neg hp] at h
    simp at h

/-- The directive interpreter never writes the pending-comment variable. -/
theorem applyDirective_last_comment (st : GenState) (cmd : String)
    (cnt : Option String) (st2 : GenState)
    (h : applyDirective st cmd cnt = .ok st2) :
    st2.last_comment = st.last_comment := by
  unfold applyDirective at h
  by_cases c1 : (cmd == "define_begin") = true
  · rw [if_pos c1] at h
    injection h with h2
    subst h2
    rfl
  rw [if_neg c1] at h
  by_cases c2 : (cmd == "define_end") = true
  · rw [if_pos c2] at h
    cases hr : listRemove st.active_rules Rule.DEFINE with
    | error e =>
      rw [hr] at h
      exact (Except.noConfusion h)
    | ok rs =>
      rw [hr] at h
      injection h with h2
      subst h2
      rfl
  rw [if_neg c2] at h
  by_cases c3 : (cmd == "functions_begin") = true
  · rw [if_pos c3] at h
    injection h with h2
    subst h2
    rfl
  rw [if_neg c3] at h
  by_cases c4 : (cmd == "functions_end") = true
  · rw [if_pos c4] at h
    cases hr : listRemove st.active_rules Rule.FUNCTION with
    | error e =>
      rw [hr] at h
      exact (Except.noConfusion h)
    | ok rs =>
      rw [hr] at h
      injection h with h2
      subst h2
      rfl
  rw [if_neg c4] at h
  by_cases c5 : (cmd == "struct_begin") = true
  · rw [if_pos c5] at h
    injection h with h2
    subst h2
    rfl
  rw [if_neg c5] at h
  by_cases c6 : (cmd == "struct_end") = true
  · rw [if_pos c6] at h
    cases hr : listRemoveMany st.active_rules [Rule.STRUCT_BEGIN, Rule.STRUCT_EMPTY, Rule.STRUCT_MEMBER, Rule.STRUCT_END, Rule.TYPE_ALIAS_TYPEDEF, Rule.TYPE_ALIAS_DEFINE] with
    | error e =>
      rw [hr] at h
      exact (Except.noConfusion h)
    | ok rs =>
      rw [hr] at h
      injection h with h2
      subst h2
      rfl
  rw [if_neg c6] at h
  by_cases c7 : (cmd == "enum_begin") = true
  · rw [if_pos c7] at h
    injection h with h2
    subst h2
    rfl
  rw [if_neg c7] at h
  by_cases c8 : (cmd == "enum_end") = true
  · rw [if_pos c8] at h
    cases hr : listRemoveMany st.active_rules [Rule.ENUM_BEGIN, Rule.ENUM_MEMBER, Rule.ENUM_MEMBER_VALUE, Rule.ENUM_END] with
    | error e =>
      rw [hr] at h
      exact (Except.noConfusion h)
    | ok rs =>
      rw [hr] at h
      injection h with h2
      subst h2
      rfl
  rw [if_neg c8] at h
  by_cases c9 : (cmd == "callback_notation") = true
  · rw [if_pos c9] at h
    cases cnt with
    | none => exact (Except.noConfusion h)
    | some ds =>
      injection h with h2
      subst h2
      rfl
  rw [if_neg c9] at h
  by_cases c10 : (cmd == "color_defines_begin") = true
  · rw [if_pos c10] at h
    injection h with h2
    subst h2
    rfl
  rw [if_neg c10] at h
  by_cases c11 : (cmd == "color_defines_end") = true
  · rw [if_pos c11] at h
    cases hr : listRemove st.active_rules Rule.COLOR_DEFINES with
    | error e =>
      rw [hr] at h
      exact (Except.noConfusion h)
    | ok rs =>
      rw [hr] at h
      injection h with h2
      subst h2
      rfl
  rw [if_neg c11] at h
  by_cases c12 : (cmd == "define_name_alias") = true
  · rw [if_pos c12] at h
    cases cnt with
    | none => exact (Except.noConfusion h)
    | some ds =>
      injection h with h2
      subst h2
      rfl
  rw [if_neg c12] at h
  injection h with h2
  subst h2
  rfl

/-- C8 (corrected): the pending comment is cleared when a directive line
    appears (the driver hands the directive interpreter a state with an
    empty pending comment, and the interpreter never writes it), but it is
    not cleared when an Enum or Struct consumes it: opening a builder reads
    the pending comment and leaves it in place, so a second builder opened
    with no intervening comment or directive receives the same text
    again. -/
theorem c8_pending_doc :
    (∀ (st : GenState) (line cmd : String) (cnt : Option String),
        matchProcess line = some (cmd, cnt) →
        processLine st line =
          applyDirective { st with last_comment := "" } cmd cnt) ∧
    (∀ (st : GenState) (cmd : String) (cnt : Option String) (st2 : GenState),
        applyDirective st cmd cnt = .ok st2 →
        st2.last_comment = st.last_comment) ∧
    (∀ (st : GenState) (line : String), matchEnumBegin line = true →
        st.enumCurrent = none →
        applyRule st line .ENUM_BEGIN = .ok { st with enumCurrent := some ⟨st.last_comment, "", [], "", false⟩ }) ∧
    (∀ (st : GenState) (line g : String), matchStructBegin line = some g →
        st.structCurrent = none →
        applyRule st line .STRUCT_BEGIN = .ok { st with structCurrent := some ⟨st.last_comment, g, []⟩ }) := by
  refine ⟨?_, applyDirective_last_comment, ?_, ?_⟩
  · intro st line cmd cnt h
    have hc := matchProcess_comment h
    unfold processLine
    rw [hc, h]
  · intro st line hm hc
    dsimp only [applyRule]
    rw [hm, hc]
    rfl
  · intro st line g hm hc
    dsimp only [applyRule]
    rw [hm, hc]

/-- C8 counterexample: two enum blocks after a single bare comment, with no
    comment or directive between them; the second emitted class repeats the
    docstring of the first instead of receiving an empty doc. -/
theorem c8_counterexample :
    (runLines (initState none none)
        ["// @enum_begin", "// first doc", "typedef enum \x7b", "    AA_ONE,",
         "\x7d One;", "typedef enum \x7b", "    BB_TWO,", "\x7d Two;",
         "// @enum_end"]).map GenState.generated_code =
      .ok ["", "class One(IntEnum):", "    \"\"\"first doc\"\"\"",
           "    ONE = auto()", "\n", "AA_ONE = One.ONE", "", "",
           "class Two(IntEnum):", "    \"\"\"first doc\"\"\"",
           "    TWO = auto()", "\n", "BB_TWO = Two.TWO", ""] := rfl

/-- C8 witness: concrete instances of the amended statement. -/
theorem c8_witness :
    (processLine ⟨[], ["__all__ = ["], [], [], [], 0, 0, "old", none, none⟩
        "// @define_begin" =
      applyDirective ⟨[], ["__all__ = ["], [], [], [], 0, 0, "", none, none⟩
        "define_begin" none) ∧
    ((⟨[Rule.DEFINE], ["__all__ = ["], [], [], [], 0, 0, "", none, none⟩ :
        GenState).last_comment = (initState none none).last_comment) ∧
    (applyRule ⟨[], ["__all__ = ["], [], [], [], 0, 0, "first doc", none, none⟩
        "typedef enum \x7b" .ENUM_BEGIN =
      .ok ⟨[], ["__all__ = ["], [], [], [], 0, 0, "first doc",
            some ⟨"first doc", "", [], "", false⟩, none⟩) ∧
    (applyRule ⟨[], ["__all__ = ["], [], [], [], 0, 0, "vec doc", none, none⟩
        "typedef struct Vector2 \x7b" .STRUCT_BEGIN =
      .ok ⟨[], ["__all__ = ["], [], [], [], 0, 0, "vec doc", none,
            some ⟨"vec doc", "Vector2", []⟩⟩) :=
  ⟨c8_pending_doc.1 _ _ "define_begin" none rfl,
   c8_pending_doc.2.1 (initState none none) "define_begin" none _ rfl,
   c8_pending_doc.2.2.1 _ _ rfl rfl,
   c8_pending_doc.2.2.2 _ _ "Vector2" rfl rfl⟩

/-- C9 (confirmed): the only state shared between runs is the pair of
    class-level builder attributes; a run of the generator on a valid header
    (one that succeeds and leaves no builder open) leaves that state exactly
    as a fresh process has it, so a second run on the unchanged header
    produces the identical output. -/
theorem c9_deterministic :
    ∀ (loaderSrc lines out : List String) (ec : Option EnumData)
      (sc : Option StructData),
      wrap_header loaderSrc lines none none = .ok (out, ec, sc) →
      ec = none → sc = none →
      wrap_header loaderSrc lines ec sc = .ok (out, ec, sc) := by
  intro l ls out ec sc h he hs
  subst he
  subst hs
  exact h

/-- C9 witness: a sample header run twice from the post-run state of the
    first run yields the identical artifact. -/
theorem c9_witness :
    wrap_header []
      ["// @define_begin", "#define MAX_SHADER_LOCATIONS 32",
       "// @define_end"] none none =
    .ok (["__all__ = [", "    'MAX_SHADER_LOCATIONS',", "]\n",
          "MAX_SHADER_LOCATIONS = 32", ""], none, none) :=
  c9_deterministic [] _ _ none none rfl rfl rfl

/-- A successful enum conversion registers the enum name first, then the
    per-member aliases, in the export list. -/
theorem enumConvert_exports (e : EnumData) (ls ex ls2 ex2 : List String)
    (h : EnumData.convert e ls ex = .ok (ls2, ex2)) :
    ∃ tail, ex2 = ex ++ ("    '" ++ e.name ++ "',") :: tail := by
  unfold EnumData.convert at h
  by_cases h1 : (e.name == "") = true
  · rw [if_pos h1] at h
    exact (Except.noConfusion h)
  rw [if_neg h1] at h
  by_cases h2 : (e.members.length == 0) = true
  · rw [if_pos h2] at h
    exact (Except.noConfusion h)
  rw [if_neg h2] at h
  by_cases h3 : (e.correct && (e.pfx == "")) = true
  · rw [if_pos h3] at h
    exact (Except.noConfusion h)
  rw [if_neg h3] at h
  injection h with h4
  have h5 := congrArg Prod.snd h4
  dsimp at h5
  refine ⟨e.members.map (fun m => "    '" ++ e.pfx ++ "_" ++ m.1 ++ "',"), ?_⟩
  rw [← h5]
  simp [List.append_assoc]

/-- One step of the parameter fold never changes the function name. -/
theorem functionFoldStep_name (f : FunctionData) (p : String) :
    (functionFoldStep f p).name = f.name := by
  unfold functionFoldStep
  split
  · rfl
  split <;> rfl

/-- The parameter fold never changes the function name. -/
theorem functionFold_name (l : List String) (f : FunctionData) :
    (l.foldl functionFoldStep f).name = f.name := by
  induction l generalizing f with
  | nil => rfl
  | cons p l ih => rw [List.foldl_cons, ih, functionFoldStep_name]

/-- C6 (confirmed): a matched color-literal macro line emits a palette entry
    with the comment preserved (slashes turned into a hash) and leaves the
    export list untouched, while every other emitted construct appends its
    name to the export list. -/
theorem c6_palette_not_exported :
    (∀ (st : GenState) (line g1 g2 g3 : String),
        matchColorDefines line = some (g1, g2, g3) →
        applyRule st line .COLOR_DEFINES = .ok { st with palette := st.palette ++ [g1 ++ " = Color(" ++ g2 ++ ") " ++ replaceAllStr g3 "//" "#"] }) ∧
    (∀ (st : GenState) (line g1 g2 : String), matchDefine line = some (g1, g2) →
        (applyRule st line .DEFINE).map GenState.exported_names =
          .ok (st.exported_names ++ ["    '" ++ g1 ++ "',"])) ∧
    (∀ (st : GenState) (line g1 g2 : String) (st2 : GenState),
        matchNameAlias line = some (g1, g2) →
        applyRule st line .NAME_ALIAS = .ok st2 →
        st2.exported_names = st.exported_names ++ ["    '" ++ g1 ++ "',"]) ∧
    (∀ (st : GenState) (line g1 g2 : String),
        matchTypeAliasTypedef line = some (g1, g2) →
        (applyRule st line .TYPE_ALIAS_TYPEDEF).map GenState.exported_names =
          .ok (st.exported_names ++ ["    '" ++ g2 ++ "',"])) ∧
    (∀ (st : GenState) (line g1 g2 : String),
        matchTypeAliasDefine line = some (g1, g2) →
        (applyRule st line .TYPE_ALIAS_DEFINE).map GenState.exported_names =
          .ok (st.exported_names ++ ["    '" ++ g1 ++ "',"])) ∧
    (∀ (st : GenState) (line g1 g2 : String),
        matchStructEmpty line = some (g1, g2) →
        (applyRule st line .STRUCT_EMPTY).map GenState.exported_names =
          .ok (st.exported_names ++ ["    '" ++ g1 ++ "',"])) ∧
    (∀ (st : GenState) (line g : String) (st2 : GenState),
        matchStructEnd line = some g →
        applyRule st line .ENUM_END = .ok st2 →
        ∃ l, l ≠ [] ∧ st2.exported_names = st.exported_names ++ l) ∧
    (∀ (st : GenState) (line g : String) (s : StructData),
        matchStructEnd line = some g → st.structCurrent = some s →
        (applyRule st line .STRUCT_END).map GenState.exported_names =
          .ok (st.exported_names ++ ["    '" ++ s.name ++ "',"])) ∧
    (∀ (st : GenState) (line g1 g2 g3 : String) (st2 : GenState),
        matchCallback line = some (g1, g2, g3) →
        applyRule st line .CALLBACK_NOTATION = .ok st2 →
        st2.exported_names = st.exported_names ++ ["    '" ++ g2 ++ "',"]) ∧
    (∀ (st : GenState) (line : String) (u : Bool) (rt : String) (pl : Nat)
        (nm ps : String), matchFunction line = some (u, rt, pl, nm, ps) →
        (applyRule st line .FUNCTION).map GenState.exported_names =
          .ok (st.exported_names ++ ["    '" ++ to_snake_case nm ++ "',"])) := by
  refine ⟨?_, ?_, ?_, ?_, ?_, ?_, ?_, ?_, ?_, ?_⟩
  · intro st line g1 g2 g3 h
    dsimp only [applyRule]
    rw [h]
  · intro st line g1 g2 h
    dsimp only [applyRule]
    rw [h]
    rfl
  · intro st line g1 g2 st2 h h2
    dsimp only [applyRule] at h2
    rw [h] at h2
    dsimp only at h2
    split at h2
    · cases hr : listRemove st.active_rules Rule.NAME_ALIAS with
      | error e =>
        rw [hr] at h2
        exact (Except.noConfusion h2)
      | ok rs =>
        rw [hr] at h2
        injection h2 with h3
        subst h3
        rfl
    · injection h2 with h3
      subst h3
      rfl
  · intro st line g1 g2 h
    dsimp only [applyRule]
    rw [h]
    rfl
  · intro st line g1 g2 h
    dsimp only [applyRule]
    rw [h]
    rfl
  · intro st line g1 g2 h
    dsimp only [applyRule]
    rw [h]
    rfl
  · intro st line g st2 h h2
    dsimp only [applyRule] at h2
    rw [h] at h2
    cases henum : st.enumCurrent with
    | none =>
      rw [henum] at h2
      dsimp only at h2
      exact (Except.noConfusion h2)
    | some e =>
      rw [henum] at h2
      dsimp only at h2
      cases hcv : EnumData.convert { e with name := g } st.generated_code
          st.exported_names with
      | error er =>
        rw [hcv] at h2
        exact (Except.noConfusion h2)
      | ok r =>
        obtain ⟨ls2, ex2⟩ := r
        rw [hcv] at h2
        injection h2 with h3
        subst h3
        obtain ⟨tail, htail⟩ := enumConvert_exports _ _ _ _ _ hcv
        exact ⟨_, List.cons_ne_nil _ _, htail⟩
  · intro st line g s h hcur
    dsimp only [applyRule]
    rw [h, hcur]
    rfl
  · intro st line g1 g2 g3 st2 h h2
    dsimp only [applyRule] at h2
    rw [h] at h2
    dsimp only at h2
    split at h2
    · cases hr : listRemove st.active_rules Rule.CALLBACK_NOTATION with
      | error e =>
        rw [hr] at h2
        exact (Except.noConfusion h2)
      | ok rs =>
        rw [hr] at h2
        injection h2 with h3
        subst h3
        rfl
    · injection h2 with h3
      subst h3
      rfl
  · intro st line u rt pl nm ps h
    dsimp only [applyRule]
    rw [h]
    dsimp only
    split
    · rfl
    · dsimp only [FunctionData.convert]
      rw [functionFold_name]
      rfl

/-- C6 witness: concrete instances of every emission branch, with the
    RAYWHITE line of the specification as the palette case. -/
theorem c6_witness :
    (applyRule (initState none none)
        "#define RAYWHITE CLITERAL(Color)\x7b 245, 245, 245, 255 \x7d  // White almost" .COLOR_DEFINES =
      .ok { initState none none with palette := (initState none none).palette ++ ["RAYWHITE" ++ " = Color(" ++ "245, 245, 245, 255" ++ ") " ++ replaceAllStr "  // White almost" "//" "#"] }) ∧
    ((applyRule (initState none none) "#define MAX_TOUCH_POINTS 10"
        .DEFINE).map GenState.exported_names =
      .ok ((initState none none).exported_names ++ ["    '" ++ "MAX_TOUCH_POINTS" ++ "',"])) ∧
    ((⟨[Rule.NAME_ALIAS], ["__all__ = [", "    'MOUSE_LEFT',"],
        ["MOUSE_LEFT = MOUSE_BTN"], [], [], 0, 1, "", none, none⟩ :
          GenState).exported_names =
      (⟨[Rule.NAME_ALIAS], ["__all__ = ["], [], [], [], 0, 2, "", none,
        none⟩ : GenState).exported_names ++ ["    '" ++ "MOUSE_LEFT" ++ "',"]) ∧
    ((applyRule (initState none none) "typedef Texture Texture2D;"
        .TYPE_ALIAS_TYPEDEF).map GenState.exported_names =
      .ok ((initState none none).exported_names ++ ["    '" ++ "Texture2D" ++ "',"])) ∧
    ((applyRule (initState none none) "#define Quaternion Vector4  // alias"
        .TYPE_ALIAS_DEFINE).map GenState.exported_names =
      .ok ((initState none none).exported_names ++ ["    '" ++ "Quaternion" ++ "',"])) ∧
    ((applyRule (initState none none) "typedef struct rAudioBuffer rAudioBuffer;"
        .STRUCT_EMPTY).map GenState.exported_names =
      .ok ((initState none none).exported_names ++ ["    '" ++ "rAudioBuffer" ++ "',"])) ∧
    (∃ l, l ≠ [] ∧
      (⟨[], ["__all__ = [", "    'Demo',", "    'DEMO_ONE',"],
        ["", "class Demo(IntEnum):", "    ONE = auto()", "\n",
         "DEMO_ONE = Demo.ONE", ""], [], [], 0, 0, "", none, none⟩ :
          GenState).exported_names =
      (⟨[], ["__all__ = ["], [], [], [], 0, 0, "",
        some ⟨"", "", [("ONE", "auto()")], "DEMO", false⟩, none⟩ :
          GenState).exported_names ++ l) ∧
    ((applyRule ⟨[], ["__all__ = ["], [], [], [], 0, 0, "", none,
          some ⟨"", "Vector2", []⟩⟩ "\x7d Vector2;"
        .STRUCT_END).map GenState.exported_names =
      .ok ((⟨[], ["__all__ = ["], [], [], [], 0, 0, "", none,
          some ⟨"", "Vector2", []⟩⟩ : GenState).exported_names ++
        ["    '" ++ ("Vector2" : String) ++ "',"])) ∧
    ((⟨[Rule.CALLBACK_NOTATION], ["__all__ = [", "    'TraceLogCallback',"],
        ["", "TraceLogCallback = CFUNCTYPE(c_int, c_char_p)", ""], [], [], 1,
        0, "", none, none⟩ : GenState).exported_names =
      (⟨[Rule.CALLBACK_NOTATION], ["__all__ = ["], [], [], [], 2, 0, "",
        none, none⟩ : GenState).exported_names ++ ["    '" ++ "TraceLogCallback" ++ "',"]) ∧
    ((applyRule (initState none none) "RLAPI void CloseWindow(void);"
        .FUNCTION).map GenState.exported_names =
      .ok ((initState none none).exported_names ++ ["    '" ++ to_snake_case "CloseWindow" ++ "',"])) :=
  ⟨c6_palette_not_exported.1 _ _ "RAYWHITE" "245, 245, 245, 255"
      "  // White almost" rfl,
   c6_palette_not_exported.2.1 _ _ "MAX_TOUCH_POINTS" "10" rfl,
   c6_palette_not_exported.2.2.1
     ⟨[Rule.NAME_ALIAS], ["__all__ = ["], [], [], [], 0, 2, "", none, none⟩
     "#define MOUSE_LEFT MOUSE_BTN" "MOUSE_LEFT" "MOUSE_BTN" _ rfl rfl,
   c6_palette_not_exported.2.2.2.1 _ _ "Texture" "Texture2D" rfl,
   c6_palette_not_exported.2.2.2.2.1 _ _ "Quaternion" "Vector4" rfl,
   c6_palette_not_exported.2.2.2.2.2.1 _ _ "rAudioBuffer" "rAudioBuffer" rfl,
   c6_palette_not_exported.2.2.2.2.2.2.1
     ⟨[], ["__all__ = ["], [], [], [], 0, 0, "",
       some ⟨"", "", [("ONE", "auto()")], "DEMO", false⟩, none⟩
     "\x7d Demo;" "Demo" _ rfl rfl,
   c6_palette_not_exported.2.2.2.2.2.2.2.1 _ _ "Vector2" ⟨"", "Vector2", []⟩
     rfl rfl,
   c6_palette_not_exported.2.2.2.2.2.2.2.2.1
     ⟨[Rule.CALLBACK_NOTATION], ["__all__ = ["], [], [], [], 2, 0, "", none,
       none⟩
     "typedef void (*TraceLogCallback)(int logLevel, const char *text);"
     "void" "TraceLogCallback" "(int logLevel, const char *text)" _ rfl rfl,
   c6_palette_not_exported.2.2.2.2.2.2.2.2.2 _ _ false "void" 0 "CloseWindow"
     "(void)" rfl⟩

/-- The scripting-facing annotation of the return type, as convert
    computes it. -/
def pyReturnAnnotation (f : FunctionData) : String :=
  let dtype := typename f.unsigned f.rettype f.ptr_level (-1)
  (C_TO_PY_TYPES.lookup dtype).getD dtype

/-- C7 (confirmed): for a parameter list that ends in the variadic marker,
    the generated wrapper takes the fixed parameters followed by a single
    trailing star-args catch-all, while the native argument-type list (and
    the forwarded call arguments) cover the fixed parameters only; the
    TraceLog declaration of the specification is wrapped exactly so. -/
theorem c7_variadic_trailing :
    (∀ (f : FunctionData) (ps : List FunctionParamData) (ls ex : List String),
        (∀ p ∈ ps, p.is_varargs = false) →
        f.params = ps ++ [varargsParam] →
        FunctionData.convert f ls ex =
          (ls ++
            ["",
             "_rl." ++ f.name ++ ".argtypes = [" ++
               String.intercalate ", " (ps.map (fun p =>
                 typename p.unsigned p.type p.ptr_level (-1))) ++ "]",
             "_rl." ++ f.name ++ ".restype = " ++
               typename f.unsigned f.rettype f.ptr_level (-1),
             "def " ++ to_snake_case f.name ++ "(" ++
               String.intercalate ", "
                 (ps.map FunctionParamData.convert_to_string ++ ["*args"]) ++
               ") -> " ++ pyReturnAnnotation f ++ ":",
             "    " ++
               (if pyReturnAnnotation f == "None" then "" else "return ") ++
               "_rl." ++ f.name ++ "(" ++
               String.intercalate ", " (ps.map FunctionParamData.py_name) ++
               ")",
             ""],
           ex ++ ["    '" ++ to_snake_case f.name ++ "',"])) ∧
    ((applyRule (initState none none)
        "RLAPI void TraceLog(int logLevel, const char *text, ...);"
        .FUNCTION).map (fun st => (st.funcion_wrappers, st.exported_names)) =
      .ok (["", "_rl.TraceLog.argtypes = [c_int, c_char_p]",
            "_rl.TraceLog.restype = None",
            "def trace_log(log_level: int, text: bytes, *args) -> None:",
            "    _rl.TraceLog(log_level, text)", ""],
           ["__all__ = [", "    'trace_log',"])) := by
  constructor
  · intro f ps ls ex hps hp
    have hfil : (ps ++ [varargsParam]).filter (fun p => !p.is_varargs) = ps := by
      rw [List.filter_append]
      have h1 : ps.filter (fun p => !p.is_varargs) = ps :=
        List.filter_eq_self.mpr (fun a ha => by simp [hps a ha])
      have h2 : [varargsParam].filter (fun p => !p.is_varargs) = [] := rfl
      rw [h1, h2, List.append_nil]
    dsimp only [FunctionData.convert]
    rw [hp, hfil, List.map_append]
    rfl
  · rfl

/-- C7 witness: the concrete TraceLog parameter lists, with the general
    statement applied to the two fixed parameters and the variadic
    marker. -/
theorem c7_witness :
    FunctionData.convert
      { name := "TraceLog", rettype := "void", ptr_level := 0,
        unsigned := false,
        params := [⟨"logLevel", "int", 0, false, false⟩,
                   ⟨"text", "char", 1, false, false⟩] ++ [varargsParam] }
      [] [] =
    (["", "_rl.TraceLog.argtypes = [c_int, c_char_p]",
      "_rl.TraceLog.restype = None",
      "def trace_log(log_level: int, text: bytes, *args) -> None:",
      "    _rl.TraceLog(log_level, text)", ""],
     ["    'trace_log',"]) := by
  exact c7_variadic_trailing.1 _
    [⟨"logLevel", "int", 0, false, false⟩, ⟨"text", "char", 1, false, false⟩]
    [] [] (by decide) rfl

end RlCtbg

